import Mathlib

/-!
Shallow embedding of the wlscreenaccess response-envelope codec
(src/response.rs) and of the handle-token validation (src/lib.rs),
with theorems settling the specified properties.

Wire values (the zvariant data the codec sees) are modelled by the
inductive type Value below.  Doubles are modelled by rationals: the
codec never computes with payload numbers, it only moves them, so an
exact stand-in is faithful.  Panics (Rust expect and unwrap) are
modelled by the value none of an Option-typed result.
-/

namespace Portal

/-- A wire-level zvariant value: an unsigned integer, a double, a string,
an array, or a string-keyed dictionary (vardict). -/
inductive Value where
  | nat (n : Nat)
  | float (q : Rat)
  | str (s : String)
  | array (elems : List Value)
  | dict (entries : List (String × Value))

/-- The error classification exposed to callers, from src/response.rs
(enum ResponseError): the user cancelled, or something else happened. -/
inductive ResponseError where
  | Cancelled
  | Other
deriving DecidableEq

/-- The wire status tag, from src/response.rs (enum ResponseType):
Success = 0, Cancelled = 1, Other = 2. -/
inductive ResponseType where
  | Success
  | Cancelled
  | Other
deriving DecidableEq

/-- The integer code each status serializes to (its variant index). -/
def ResponseType.code : ResponseType → Nat
  | ResponseType.Success => 0
  | ResponseType.Cancelled => 1
  | ResponseType.Other => 2

/-- From src/response.rs, impl From ResponseError for ResponseType. -/
def ResponseType.fromError : ResponseError → ResponseType
  | ResponseError.Other => ResponseType.Other
  | ResponseError.Cancelled => ResponseType.Cancelled

/-- The typed result of decoding an envelope, from src/response.rs
(enum Response of T): Ok with a payload, or Err with a classification. -/
inductive Response (T : Type) where
  | Ok (t : T)
  | Err (e : ResponseError)
deriving DecidableEq

/-- Decode errors surfaced by the envelope codec.  The source reports
them as serde error strings; here each distinct failure site gets a
constructor.  missingStatus is the custom error raised when the tuple
has no first element; malformedHeader is the error the status decoder
raises when the first element is not a recognized status integer;
missingPayload is the custom error raised when status is Success but
the payload slot is absent; payloadDecode wraps the payload codecs own
error, propagated verbatim. -/
inductive DecodeError where
  | missingStatus
  | malformedHeader
  | missingPayload
  | payloadDecode (msg : String)
deriving DecidableEq

/-- Deserialization of the status tag from its wire integer (the serde
derive for ResponseType accepts exactly the three variant indices 0, 1
and 2; every other integer is a decode error). -/
def decodeResponseType (n : Nat) : Except DecodeError ResponseType :=
  if n = 0 then Except.ok ResponseType.Success
  else if n = 1 then Except.ok ResponseType.Cancelled
  else if n = 2 then Except.ok ResponseType.Other
  else Except.error DecodeError.malformedHeader

/-- Decoding the first tuple element as a status: it must be an
integer carrying a recognized code. -/
def decodeStatus : Value → Except DecodeError ResponseType
  | Value.nat n => decodeResponseType n
  | _ => Except.error DecodeError.malformedHeader

/-- The visitor body of impl Deserialize for Response of T
(ResponseVisitor.visit_seq in src/response.rs).  The sequence access is
modelled by the list of remaining wire elements; next_element on an
empty list yields absence.  decT is the payload types own decoder.
Mirrors the source: read the status (absence is a custom error, a bad
value propagates); when the status is Success, read the payload
(absence is the custom missing-payload error, a payload decode failure
propagates, wrapped); otherwise read nothing further. -/
def visitSeq {T : Type} (decT : Value → Except String T) (seq : List Value) :
    Except DecodeError (ResponseType × Option T) :=
  match seq with
  | [] => Except.error DecodeError.missingStatus
  | v :: rest =>
    match decodeStatus v with
    | Except.error e => Except.error e
    | Except.ok type_ =>
      if type_ = ResponseType.Success then
        match rest with
        | [] => Except.error DecodeError.missingPayload
        | w :: _ =>
          match decT w with
          | Except.error msg => Except.error (DecodeError.payloadDecode msg)
          | Except.ok data => Except.ok (type_, some data)
      else Except.ok (type_, none)

/-- From src/response.rs, impl From (ResponseType, Option T) for
Response of T.  The source calls expect on the option in the Success
arm, panicking when it is none; the panic is modelled by none. -/
def responseOfPair {T : Type} : ResponseType × Option T → Option (Response T)
  | (ResponseType.Success, some data) => some (Response.Ok data)
  | (ResponseType.Success, none) => none
  | (ResponseType.Cancelled, _) => some (Response.Err ResponseError.Cancelled)
  | (ResponseType.Other, _) => some (Response.Err ResponseError.Other)

/-- Full deserialization of Response of T (impl Deserialize in
src/response.rs): run the visitor, then convert the pair, with none
modelling the panic of the conversion. -/
def deserializeResponse {T : Type} (decT : Value → Except String T)
    (seq : List Value) : Option (Except DecodeError (Response T)) :=
  match visitSeq decT seq with
  | Except.error e => some (Except.error e)
  | Except.ok pair => (responseOfPair pair).map Except.ok

/-- Serialization of the status tag (variant index as wire integer). -/
def serializeResponseType (t : ResponseType) : Value :=
  Value.nat t.code

/-- From src/response.rs: struct BasicResponse, a dictionary with no
required keys, serialized in the failure arm of the encoder. -/
structure BasicResponse where
  entries : List (String × Value)

/-- BasicResponse::default(): the empty dictionary. -/
def basicResponseDefault : BasicResponse := BasicResponse.mk []

/-- Serialization of a BasicResponse (a vardict of its entries). -/
def encodeBasicResponse (b : BasicResponse) : Value :=
  Value.dict b.entries

/-- Deserialization of a BasicResponse: any vardict decodes. -/
def decodeBasicResponse : Value → Except String BasicResponse
  | Value.dict es => Except.ok (BasicResponse.mk es)
  | _ => Except.error ("expected a vardict")

/-- From src/response.rs, impl Serialize for Response of T: a
two-element tuple; the Err arm writes the status for the error and a
default BasicResponse, the Ok arm writes Success and the payload
encoded by the payload types own encoder encT. -/
def serializeResponse {T : Type} (encT : T → Value) : Response T → List Value
  | Response.Err err =>
      [serializeResponseType (ResponseType.fromError err),
       encodeBasicResponse basicResponseDefault]
  | Response.Ok r => [serializeResponseType ResponseType.Success, encT r]

/-- The handle-token character class of src/lib.rs, impl TryFrom:
ASCII alphanumeric or underscore. -/
def isTokenChar (c : Char) : Bool :=
  c.isAlphanum || c == '_'

/-- The validation loop of HandleToken::try_from (src/lib.rs): scan the
characters in order and return the first one outside the class, if
any. -/
def findInvalidChar : List Char → Option Char
  | [] => none
  | c :: rest => if isTokenChar c then findInvalidChar rest else some c

/-- First-character class of a bus member name: ASCII letter or
underscore (digits are not allowed first). -/
def isMemberFirstChar (c : Char) : Bool :=
  c.isAlpha || c == '_'

/-- Validation performed by the external bus-names library when
OwnedMemberName::try_from runs inside HandleToken::try_from
(src/lib.rs).  Per the D-Bus member-name rules: nonempty, at most 255
characters, first character an ASCII letter or underscore, remaining
characters ASCII alphanumerics or underscore.  (All inputs reaching it
here are ASCII, so character count equals byte count.) -/
def memberNameOk : List Char → Bool
  | [] => false
  | c :: rest =>
      isMemberFirstChar c && decide ((c :: rest).length ≤ 255)
        && rest.all isTokenChar

/-- A validated handle token (struct HandleToken of src/lib.rs),
holding the member name it wraps, as a list of characters. -/
structure HandleToken where
  name : List Char
deriving DecidableEq

/-- HandleToken::try_from (src/lib.rs): reject at the first character
outside the class; otherwise build the member name, where the source
calls expect, panicking when the member-name validation fails.  The
panic is modelled by none; some (Except.error c) is the returned
HandleInvalidCharacter error, some (Except.ok t) the success. -/
def handleTokenTryFrom (s : List Char) : Option (Except Char HandleToken) :=
  match findInvalidChar s with
  | some c => some (Except.error c)
  | none =>
      if memberNameOk s then some (Except.ok (HandleToken.mk s))
      else none

/-- The literal written before the random characters by
HandleToken::default (src/lib.rs), the string ashpd underscore. -/
def ashpdLit : List Char := ['a', 's', 'h', 'p', 'd', '_']

/-- HandleToken::default (src/lib.rs): sample ten characters from the
randomness source (the Alphanumeric distribution), append them to the
literal, and convert; unwrap and the inner expect both panic on
failure, modelled by none.  The randomness source is modelled by the
stream of its successive samples. -/
def defaultHandleToken (sample : Nat → Char) : Option HandleToken :=
  match handleTokenTryFrom (ashpdLit ++ (List.range 10).map sample) with
  | some (Except.ok t) => some t
  | some (Except.error _) => none
  | none => none

/-- The RGB record produced by ColorResponse::to_rgb (src/lib.rs). -/
structure RGB where
  red : Rat
  green : Rat
  blue : Rat
deriving DecidableEq

/-- From src/lib.rs: struct ColorResponse, a vardict with a color field
holding an array of three doubles, modelled as a triple of rationals
(components 0, 1 and 2 of the array). -/
structure ColorResponse where
  color : Rat × Rat × Rat
deriving DecidableEq

/-- ColorResponse::to_rgb (src/lib.rs): elements 0, 1, 2 of the color
array become the red, green and blue fields, unchanged. -/
def ColorResponse.to_rgb (c : ColorResponse) : RGB :=
  RGB.mk c.color.1 c.color.2.1 c.color.2.2

/-- The dictionary key of the ColorResponse payload field. -/
def colorKey : String := "color"

/-- Key lookup in a decoded vardict (first entry with the key wins). -/
def lookupKey (k : String) : List (String × Value) → Option Value
  | [] => none
  | (k2, v) :: rest => if k2 = k then some v else lookupKey k rest

/-- The payload decoder the DeserializeDict derive gives ColorResponse
(src/lib.rs): a vardict whose color entry is an array of exactly three
doubles; anything else is a payload decode error. -/
def decodeColorResponse (v : Value) : Except String ColorResponse :=
  match v with
  | Value.dict entries =>
    match lookupKey colorKey entries with
    | some (Value.array [Value.float r, Value.float g, Value.float b]) =>
        Except.ok (ColorResponse.mk (r, g, b))
    | some _ => Except.error ("the color field is not an array of three doubles")
    | none => Except.error ("missing field color")
  | _ => Except.error ("expected a vardict")

/-- Helper: the payload codec of BasicResponse round-trips. -/
theorem basicResponse_roundtrip (b : BasicResponse) :
    decodeBasicResponse (encodeBasicResponse b) = Except.ok b := by
  cases b
  rfl

/-- C1: round-trip law of the envelope codec.  For any payload codec
pair that round-trips, deserializing the serialization of Ok p yields
Ok p, and for each error kind k, deserializing the serialization of
Err k yields Err k. -/
theorem response_roundtrip (T : Type) (encT : T → Value)
    (decT : Value → Except String T)
    (hp : ∀ p, decT (encT p) = Except.ok p) (p : T) (k : ResponseError) :
    deserializeResponse decT (serializeResponse encT (Response.Ok p))
        = some (Except.ok (Response.Ok p))
      ∧ deserializeResponse decT (serializeResponse encT (Response.Err k))
        = some (Except.ok (Response.Err k)) := by
  constructor
  · simp [serializeResponse, serializeResponseType, ResponseType.code,
      deserializeResponse, visitSeq, decodeStatus, decodeResponseType,
      hp p, responseOfPair]
  · cases k <;> rfl

/-- C1 witness: the round-trip law applied to the BasicResponse codec
at the empty dictionary and the Cancelled error kind. -/
theorem response_roundtrip_witness :
    deserializeResponse decodeBasicResponse
        (serializeResponse encodeBasicResponse
          (Response.Ok (BasicResponse.mk [])))
      = some (Except.ok (Response.Ok (BasicResponse.mk [])))
    ∧ deserializeResponse decodeBasicResponse
        (serializeResponse encodeBasicResponse
          (Response.Err ResponseError.Cancelled))
      = some (Except.ok (Response.Err ResponseError.Cancelled)) :=
  response_roundtrip BasicResponse encodeBasicResponse decodeBasicResponse
    basicResponse_roundtrip (BasicResponse.mk []) ResponseError.Cancelled

/-- C2: when the first wire element decodes to the Cancelled or Other
status, decoding yields Err Cancelled or Err Other respectively, for
every content of the rest of the tuple and for every payload decoder
decT (so the typed payload decoder is never consulted on these
paths). -/
theorem decode_err_ignores_payload (T : Type)
    (decT : Value → Except String T) (v : Value) (rest : List Value) :
    (decodeStatus v = Except.ok ResponseType.Cancelled →
        deserializeResponse decT (v :: rest)
          = some (Except.ok (Response.Err ResponseError.Cancelled)))
      ∧ (decodeStatus v = Except.ok ResponseType.Other →
        deserializeResponse decT (v :: rest)
          = some (Except.ok (Response.Err ResponseError.Other))) := by
  constructor <;> intro h <;>
    simp [deserializeResponse, visitSeq, h, responseOfPair]

/-- C2 witness: wire tuple of status 1 with an arbitrary second
element, decoded with a payload decoder that always fails, still
yields Err Cancelled. -/
theorem decode_err_ignores_payload_witness :
    @deserializeResponse Unit (fun _ => Except.error ("always fails"))
        [Value.nat 1, Value.nat 99]
      = some (Except.ok (Response.Err
          (ResponseError.Cancelled : ResponseError))) :=
  (decode_err_ignores_payload Unit (fun _ => Except.error ("always fails"))
    (Value.nat 1) [Value.nat 99]).1 rfl

/-- C3: for every payload type and decoder, decoding a wire tuple with
status Success (0) but no second element fails with the
missing-payload decode error. -/
theorem decode_success_missing_payload (T : Type)
    (decT : Value → Except String T) :
    deserializeResponse decT [Value.nat 0]
      = some (Except.error DecodeError.missingPayload) := by
  rfl

/-- C4: decoding a wire tuple whose first element is an integer other
than 0, 1 or 2 fails with the malformed-header decode error, for every
payload decoder and every remaining content. -/
theorem decode_unknown_status_malformed (T : Type)
    (decT : Value → Except String T) (n : Nat) (rest : List Value)
    (h0 : n ≠ 0) (h1 : n ≠ 1) (h2 : n ≠ 2) :
    deserializeResponse decT (Value.nat n :: rest)
      = some (Except.error DecodeError.malformedHeader) := by
  simp [deserializeResponse, visitSeq, decodeStatus, decodeResponseType,
    h0, h1, h2]

/-- C4 witness: status integer 5 yields the malformed-header error. -/
theorem decode_unknown_status_malformed_witness :
    deserializeResponse (fun _ => Except.ok ()) [Value.nat 5]
      = some (Except.error DecodeError.malformedHeader) :=
  decode_unknown_status_malformed Unit (fun _ => Except.ok ()) 5 []
    (by decide) (by decide) (by decide)

/-- C7: encode direction.  Ok t serializes as the pair of the Success
status and the encoded payload; Err k serializes as the pair of the
status for k and the encoded empty dictionary; the status mapping
sends Cancelled to Cancelled and Other to Other; the payload slot is
present (the tuple has two elements) even for failures. -/
theorem serialize_shape (T : Type) (encT : T → Value) (t : T)
    (k : ResponseError) :
    serializeResponse encT (Response.Ok t)
        = [serializeResponseType ResponseType.Success, encT t]
      ∧ serializeResponseType ResponseType.Success = Value.nat 0
      ∧ serializeResponse encT (Response.Err k)
        = [serializeResponseType (ResponseType.fromError k),
           encodeBasicResponse basicResponseDefault]
      ∧ ResponseType.fromError ResponseError.Cancelled
        = ResponseType.Cancelled
      ∧ ResponseType.fromError ResponseError.Other = ResponseType.Other
      ∧ (serializeResponse encT (Response.Err k)).length = 2 :=
  ⟨rfl, rfl, rfl, rfl, rfl, by cases k <;> rfl⟩

/-- C8: decoding the wire tuple of status 0 and a vardict mapping the
color key to the array of the three doubles 0.1, 0.2, 0.3 against the
color payload type yields Ok of that ColorResponse, and to_rgb maps
the color arrays elements 0, 1 and 2 to the red, green and blue fields
unchanged, for every ColorResponse. -/
theorem color_scenario :
    deserializeResponse decodeColorResponse
        [Value.nat 0,
         Value.dict [(colorKey,
           Value.array [Value.float ((1 : Rat)/10),
             Value.float ((2 : Rat)/10), Value.float ((3 : Rat)/10)])]]
      = some (Except.ok (Response.Ok
          (ColorResponse.mk ((1 : Rat)/10, (2 : Rat)/10, (3 : Rat)/10))))
    ∧ ∀ c : ColorResponse,
        c.to_rgb.red = c.color.1 ∧ c.to_rgb.green = c.color.2.1
          ∧ c.to_rgb.blue = c.color.2.2 :=
  ⟨rfl, fun _ => ⟨rfl, rfl, rfl⟩⟩

/-- C9: deserialization never panics: for every payload decoder and
every wire sequence, the result is some decode outcome, never the none
that models the expect panic of the pair conversion (whenever the
visitor returns the Success status it supplies a payload). -/
theorem deserialize_no_panic (T : Type) (decT : Value → Except String T)
    (seq : List Value) :
    (deserializeResponse decT seq).isSome = true := by
  match seq with
  | [] => rfl
  | v :: rest =>
    cases hds : decodeStatus v with
    | error e => simp [deserializeResponse, visitSeq, hds]
    | ok t =>
      cases t with
      | Success =>
        cases rest with
        | nil => simp [deserializeResponse, visitSeq, hds]
        | cons w ws =>
          cases hd : decT w with
          | error msg => simp [deserializeResponse, visitSeq, hds, hd]
          | ok d =>
            simp [deserializeResponse, visitSeq, hds, hd, responseOfPair]
      | Cancelled => simp [deserializeResponse, visitSeq, hds, responseOfPair]
      | Other => simp [deserializeResponse, visitSeq, hds, responseOfPair]

/-- Helper: the validation loop finds no character exactly when every
character is in the token class. -/
theorem findInvalidChar_none_iff (s : List Char) :
    findInvalidChar s = none ↔ ∀ c ∈ s, isTokenChar c = true := by
  induction s with
  | nil => simp [findInvalidChar]
  | cons c rest ih =>
    by_cases hc : isTokenChar c = true
    · simp [findInvalidChar, hc, ih]
    · simp [findInvalidChar, hc]

/-- Helper: the validation loop returns the first offending character. -/
theorem findInvalidChar_first (pre : List Char) (c : Char) (post : List Char)
    (hpre : ∀ d ∈ pre, isTokenChar d = true) (hc : isTokenChar c = false) :
    findInvalidChar (pre ++ c :: post) = some c := by
  induction pre with
  | nil => simp [findInvalidChar, hc]
  | cons d ds ih =>
    have hd : isTokenChar d = true := hpre d (List.mem_cons_self d ds)
    simp [findInvalidChar, hd]
    exact ih (fun e he => hpre e (List.mem_cons_of_mem d he))

/-- Helper: try_from succeeds on a string of class characters that the
member-name validation accepts. -/
theorem tryFrom_ok_of_valid (s : List Char)
    (hall : ∀ c ∈ s, isTokenChar c = true) (hok : memberNameOk s = true) :
    handleTokenTryFrom s = some (Except.ok (HandleToken.mk s)) := by
  simp [handleTokenTryFrom, (findInvalidChar_none_iff s).mpr hall, hok]

/-- Helper: the member-name validation accepts a nonempty string of
class characters whose first character is a letter or underscore and
whose length is at most 255. -/
theorem memberNameOk_of (c : Char) (rest : List Char)
    (hfirst : isMemberFirstChar c = true)
    (hall : ∀ d ∈ c :: rest, isTokenChar d = true)
    (hlen : (c :: rest).length ≤ 255) :
    memberNameOk (c :: rest) = true := by
  have hlen2 : rest.length ≤ 254 := by
    simp at hlen
    omega
  simp [memberNameOk, hfirst, List.all_eq_true]
  exact ⟨hlen2, fun d hd => hall d (List.mem_cons_of_mem c hd)⟩

/-- C5 counterexample: the claim asserts that every string whose
characters all lie in the class yields Ok; the empty string satisfies
that vacuously, yet try_from reaches the member-name expect, which
rejects empty names, so the call panics (modelled by none) instead of
returning Ok or Err. -/
theorem tryFrom_empty_panics : handleTokenTryFrom [] = none := rfl

/-- C5 (amended): try_from returns Ok exactly when every character is
in the class and the member-name validation accepts the string
(nonempty, first character a letter or underscore, at most 255
characters); every string whose characters all lie in the class but
which fails that validation (for example digit-first, empty, or over
255 characters) makes try_from panic (none) instead of returning Ok or
Err; and a string containing a character outside the class returns Err
of the first such character. -/
theorem tryFrom_amended (s : List Char) :
    ((∀ c ∈ s, isTokenChar c = true) → memberNameOk s = true →
        handleTokenTryFrom s = some (Except.ok (HandleToken.mk s)))
      ∧ ((∀ c ∈ s, isTokenChar c = true) → memberNameOk s = false →
        handleTokenTryFrom s = none)
      ∧ (∀ pre c post, s = pre ++ c :: post →
          (∀ d ∈ pre, isTokenChar d = true) → isTokenChar c = false →
          handleTokenTryFrom s = some (Except.error c))
      ∧ (∀ t, handleTokenTryFrom s = some (Except.ok t) →
          (∀ c ∈ s, isTokenChar c = true) ∧ memberNameOk s = true) := by
  refine ⟨fun hall hok => tryFrom_ok_of_valid s hall hok, ?_, ?_, ?_⟩
  · intro hall hbad
    simp [handleTokenTryFrom, (findInvalidChar_none_iff s).mpr hall, hbad]
  · intro pre c post hs hpre hc
    subst hs
    simp [handleTokenTryFrom, findInvalidChar_first pre c post hpre hc]
  · intro t ht
    cases hf : findInvalidChar s with
    | none =>
      refine ⟨(findInvalidChar_none_iff s).mp hf, ?_⟩
      by_cases hok : memberNameOk s = true
      · exact hok
      · simp [handleTokenTryFrom, hf, hok] at ht
    | some c =>
      simp [handleTokenTryFrom, hf] at ht

/-- C5 witness: the amended theorem applied to three concrete strings:
a valid one, one whose second character is a dot, and the digit-first
string 1, whose characters are all in the class yet which panics. -/
theorem tryFrom_amended_witness :
    handleTokenTryFrom ['a', 'b'] =
        some (Except.ok (HandleToken.mk ['a', 'b']))
      ∧ handleTokenTryFrom ['a', '.'] = some (Except.error '.')
      ∧ handleTokenTryFrom ['1'] = none :=
  ⟨(tryFrom_amended ['a', 'b']).1 (by decide) (by decide),
   (tryFrom_amended ['a', '.']).2.2.1 ['a'] '.' [] rfl (by decide) (by decide),
   (tryFrom_amended ['1']).2.1 (by decide) (by decide)⟩

/-- C6: for every state of the randomness source (every stream of
samples from the alphanumeric distribution), the default constructor
returns, without panicking, the token whose string is the ashpd
literal followed by the ten sampled characters: exactly ten
characters, each ASCII alphanumeric. -/
theorem default_token_shape (sample : Nat → Char)
    (h : ∀ i, (sample i).isAlphanum = true) :
    defaultHandleToken sample
        = some (HandleToken.mk (ashpdLit ++ (List.range 10).map sample))
      ∧ ((List.range 10).map sample).length = 10
      ∧ (∀ c ∈ (List.range 10).map sample, c.isAlphanum = true) := by
  have hall : ∀ d ∈ ashpdLit ++ (List.range 10).map sample,
      isTokenChar d = true := by
    intro d hd
    rcases List.mem_append.mp hd with h1 | h2
    · simp [ashpdLit] at h1
      rcases h1 with rfl | rfl | rfl | rfl | rfl | rfl <;> decide
    · rcases List.mem_map.mp h2 with ⟨i, _, rfl⟩
      simp [isTokenChar, h i]
  have hshape : ashpdLit ++ (List.range 10).map sample
      = 'a' :: (['s', 'h', 'p', 'd', '_'] ++ (List.range 10).map sample) := by
    simp [ashpdLit]
  have hlen : (ashpdLit ++ (List.range 10).map sample).length ≤ 255 := by
    simp [ashpdLit]
  have hok : memberNameOk (ashpdLit ++ (List.range 10).map sample) = true := by
    rw [hshape] at hall hlen ⊢
    exact memberNameOk_of 'a' _ (by decide) hall hlen
  refine ⟨?_, by simp, ?_⟩
  · simp [defaultHandleToken, tryFrom_ok_of_valid _ hall hok]
  · intro c hc
    rcases List.mem_map.mp hc with ⟨i, _, rfl⟩
    exact h i

/-- C6 witness: the shape theorem applied to the constant stream of
the letter a. -/
theorem default_token_shape_witness :
    defaultHandleToken (fun _ => 'a')
      = some (HandleToken.mk
          (ashpdLit ++ (List.range 10).map (fun _ => 'a'))) :=
  (default_token_shape (fun _ => 'a') (fun _ => rfl)).1

/-- C10: for every nonempty string whose first character is an ASCII
letter or underscore, whose every character is in the token class, and
whose length is within the member-name limit of 255, try_from returns
Ok of the token wrapping that string and does not panic. -/
theorem tryFrom_valid_no_panic (c : Char) (rest : List Char)
    (hfirst : isMemberFirstChar c = true)
    (hall : ∀ d ∈ c :: rest, isTokenChar d = true)
    (hlen : (c :: rest).length ≤ 255) :
    handleTokenTryFrom (c :: rest)
      = some (Except.ok (HandleToken.mk (c :: rest))) :=
  tryFrom_ok_of_valid (c :: rest) hall (memberNameOk_of c rest hfirst hall hlen)

/-- C10 witness: the no-panic theorem applied to the one-letter
string x. -/
theorem tryFrom_valid_no_panic_witness :
    handleTokenTryFrom ['x'] = some (Except.ok (HandleToken.mk ['x'])) :=
  tryFrom_valid_no_panic 'x' [] (by decide) (by decide) (by decide)

end Portal
